import Mathlib

/-!
Shallow embedding of the WordPress MCP server's validation pipeline,
request-shaping client logic and response formatting
(src/index.ts, src/types.ts, src/wordpress-api.ts, src/logger.ts).

JSON-like argument payloads arriving from the protocol layer are modelled
by `JVal`; each zod argument schema becomes an executable parser
`JVal → Except String …` that mirrors the schema's field checks, defaults
and (for the categories/tags schemas) the `.strict()` closed-shape check.
JavaScript truthiness (empty string and zero are falsy) is modelled
explicitly by the `jsTruthy`/`jsOrStr`/`jsOrInt` helpers, since the client
and the formatters branch on `||` and `if (x)` tests.
-/

namespace WPMCP

/-- JSON-like value delivered by the protocol layer as a tool argument. -/
inductive JVal where
  | null
  | bool (b : Bool)
  | num (n : Int)
  | str (s : String)
  | arr (xs : List JVal)
  | obj (fields : List (String × JVal))

/-- First value bound to `key` in a JS-object field list (property lookup). -/
def getField : List (String × JVal) → String → Option JVal
  | [], _ => none
  | (k, v) :: rest, key => if k = key then some v else getField rest key

/-- JavaScript truthiness filter on an optional string: the empty string is falsy. -/
def jsTruthy : Option String → Option String
  | some s => if s = "" then none else some s
  | none => none

/-- Model of a JS `x || d` fallback chain step for strings. -/
def jsOrStr (o : Option String) (d : String) : String :=
  match jsTruthy o with
  | some s => s
  | none => d

/-- Model of JS `n || d` for a number already known to be present (0 is falsy). -/
def jsOrInt (n : Int) (d : Int) : Int :=
  if n = 0 then d else n

/-- Model of JS `x || d` for an optional number (undefined and 0 are falsy). -/
def jsOrOptInt (o : Option Int) (d : Int) : Int :=
  match o with
  | some n => if n = 0 then d else n
  | none => d

/-- JavaScript truthiness of an optional number (undefined and 0 are falsy). -/
def truthyOptInt (o : Option Int) : Bool :=
  match o with
  | some n => if n = 0 then false else true
  | none => false

/-- Model of JS `s.substring(0, n)`. -/
def jsSubstring (s : String) (n : Nat) : String :=
  ⟨s.data.take n⟩

/-- Model of JS `s.trim()`: strip whitespace from both ends. -/
def jsTrim (s : String) : String :=
  ⟨((s.data.dropWhile Char.isWhitespace).reverse.dropWhile Char.isWhitespace).reverse⟩

/-- Model of JS `s.split('T')[0]`: the prefix before the first `'T'`. -/
def splitTfirst (s : String) : String :=
  ⟨s.data.takeWhile (fun c => c != 'T')⟩

/-- Model of JS template interpolation of a possibly-undefined number. -/
def optIntStr : Option Int → String
  | some n => toString n
  | none => "undefined"

/-! Field-level parsers mirroring the zod combinators used by the schemas.
Each takes the looked-up property value (`none` = property absent). -/

/-- Bound check for `z.number().min(lo).max(hi)`. -/
def checkNumBounds (key : String) (lo hi : Option Int) (n : Int) : Except String Int :=
  match lo with
  | some l =>
    if n < l then .error (key ++ ": Number must be greater than or equal to " ++ toString l)
    else
      match hi with
      | some h =>
        if h < n then .error (key ++ ": Number must be less than or equal to " ++ toString h)
        else .ok n
      | none => .ok n
  | none =>
    match hi with
    | some h =>
      if h < n then .error (key ++ ": Number must be less than or equal to " ++ toString h)
      else .ok n
    | none => .ok n

/-- Length check for `z.string().min(minLen).max(maxLen)`. -/
def checkStrBounds (key : String) (minLen : Nat) (maxLen : Option Nat) (s : String) :
    Except String String :=
  if s.length < minLen then
    .error (key ++ ": String must contain at least " ++ toString minLen ++ " character(s)")
  else
    match maxLen with
    | some mx =>
      if mx < s.length then
        .error (key ++ ": String must contain at most " ++ toString mx ++ " character(s)")
      else .ok s
    | none => .ok s

/-- Required bounded string field. -/
def parseReqStr (mv : Option JVal) (key : String) (minLen : Nat) (maxLen : Option Nat) :
    Except String String :=
  match mv with
  | none => .error (key ++ ": Required")
  | some (.str s) => checkStrBounds key minLen maxLen s
  | some _ => .error (key ++ ": Expected string")

/-- Optional bounded string field (absent property validates to `none`). -/
def parseOptStr (mv : Option JVal) (key : String) (minLen : Nat) (maxLen : Option Nat) :
    Except String (Option String) :=
  match mv with
  | none => .ok none
  | some (.str s) => (checkStrBounds key minLen maxLen s).map some
  | some _ => .error (key ++ ": Expected string")

/-- Enum field with a default (`z.enum([...]).default(dflt)`). -/
def parseEnumD (mv : Option JVal) (key : String) (options : List String) (dflt : String) :
    Except String String :=
  match mv with
  | none => .ok dflt
  | some (.str s) => if options.contains s then .ok s else .error (key ++ ": Invalid enum value")
  | some _ => .error (key ++ ": Expected string")

/-- Optional enum field. -/
def parseEnumOpt (mv : Option JVal) (key : String) (options : List String) :
    Except String (Option String) :=
  match mv with
  | none => .ok none
  | some (.str s) =>
    if options.contains s then .ok (some s) else .error (key ++ ": Invalid enum value")
  | some _ => .error (key ++ ": Expected string")

/-- Required bounded number field. -/
def parseReqNum (mv : Option JVal) (key : String) (lo hi : Option Int) : Except String Int :=
  match mv with
  | none => .error (key ++ ": Required")
  | some (.num n) => checkNumBounds key lo hi n
  | some _ => .error (key ++ ": Expected number")

/-- Bounded number field with a default. -/
def parseNumD (mv : Option JVal) (key : String) (lo hi : Option Int) (dflt : Int) :
    Except String Int :=
  match mv with
  | none => .ok dflt
  | some (.num n) => checkNumBounds key lo hi n
  | some _ => .error (key ++ ": Expected number")

/-- Optional bounded number field. -/
def parseOptNum (mv : Option JVal) (key : String) (lo hi : Option Int) :
    Except String (Option Int) :=
  match mv with
  | none => .ok none
  | some (.num n) => (checkNumBounds key lo hi n).map some
  | some _ => .error (key ++ ": Expected number")

/-- Boolean field with a default. -/
def parseBoolD (mv : Option JVal) (key : String) (dflt : Bool) : Except String Bool :=
  match mv with
  | none => .ok dflt
  | some (.bool b) => .ok b
  | some _ => .error (key ++ ": Expected boolean")

/-- Element extraction for `z.array(z.number())`. -/
def parseNumList (key : String) : List JVal → Except String (List Int)
  | [] => .ok []
  | .num n :: rest => (parseNumList key rest).map (fun ns => n :: ns)
  | _ :: _ => .error (key ++ ": Expected number")

/-- Optional numeric-array field. -/
def parseOptNumArr (mv : Option JVal) (key : String) : Except String (Option (List Int)) :=
  match mv with
  | none => .ok none
  | some (.arr xs) => (parseNumList key xs).map some
  | some _ => .error (key ++ ": Expected array")

/-- Closed-shape check added by `.strict()`: every offered key must be declared. -/
def checkStrict (fs : List (String × JVal)) (allowed : List String) : Except String Unit :=
  if fs.all (fun p => allowed.contains p.1) then .ok ()
  else .error "Unrecognized key(s) in object"

/-! Validated argument value types, one per tool schema (src/types.ts). -/

/-- Validated output of `CreatePostArgsSchema`. -/
structure CreatePostArgs where
  title : String
  content : String
  status : String
  excerpt : Option String
  categories : Option (List Int)
  tags : Option (List Int)
deriving DecidableEq

/-- Validated output of `UpdatePostArgsSchema`. -/
structure UpdatePostArgs where
  id : Int
  title : Option String
  content : Option String
  status : Option String
  excerpt : Option String
  categories : Option (List Int)
  tags : Option (List Int)
deriving DecidableEq

/-- Validated output of `DeletePostArgsSchema`. -/
structure DeletePostArgs where
  id : Int
  force : Bool
deriving DecidableEq

/-- Validated output of `ListPostsArgsSchema`. -/
structure ListPostsArgs where
  per_page : Int
  page : Int
  status : String
  search : Option String
  author : Option Int
  categories : Option (List Int)
  tags : Option (List Int)
  order : String
  orderby : String
  include_content : Bool
deriving DecidableEq

/-- Validated output of `GetPostArgsSchema`. -/
structure GetPostArgs where
  id : Int
  context : String
deriving DecidableEq

/-- Validated output of `GetCategoriesArgsSchema` (both fields optional). -/
structure GetCategoriesArgs where
  per_page : Option Int
  page : Option Int
deriving DecidableEq

/-- Validated output of `GetTagsArgsSchema` (both fields optional). -/
structure GetTagsArgs where
  per_page : Option Int
  page : Option Int
deriving DecidableEq

/-! Schema parsers, one per zod schema in src/types.ts. -/

/-- Parser for `CreatePostArgsSchema` (strip-mode object schema). -/
def parseCreatePostArgs (v : JVal) : Except String CreatePostArgs :=
  match v with
  | .obj fs => do
    let title ← parseReqStr (getField fs "title") "title" 1 (some 255)
    let content ← parseReqStr (getField fs "content") "content" 1 none
    let status ← parseEnumD (getField fs "status") "status" ["publish", "draft", "private"] "draft"
    let excerpt ← parseOptStr (getField fs "excerpt") "excerpt" 0 none
    let categories ← parseOptNumArr (getField fs "categories") "categories"
    let tags ← parseOptNumArr (getField fs "tags") "tags"
    .ok ⟨title, content, status, excerpt, categories, tags⟩
  | _ => .error "Expected object"

/-- Parser for `UpdatePostArgsSchema` (strip-mode object schema). -/
def parseUpdatePostArgs (v : JVal) : Except String UpdatePostArgs :=
  match v with
  | .obj fs => do
    let id ← parseReqNum (getField fs "id") "id" (some 1) none
    let title ← parseOptStr (getField fs "title") "title" 1 (some 255)
    let content ← parseOptStr (getField fs "content") "content" 1 none
    let status ← parseEnumOpt (getField fs "status") "status" ["publish", "draft", "private"]
    let excerpt ← parseOptStr (getField fs "excerpt") "excerpt" 0 none
    let categories ← parseOptNumArr (getField fs "categories") "categories"
    let tags ← parseOptNumArr (getField fs "tags") "tags"
    .ok ⟨id, title, content, status, excerpt, categories, tags⟩
  | _ => .error "Expected object"

/-- Parser for `DeletePostArgsSchema` (strip-mode object schema). -/
def parseDeletePostArgs (v : JVal) : Except String DeletePostArgs :=
  match v with
  | .obj fs => do
    let id ← parseReqNum (getField fs "id") "id" (some 1) none
    let force ← parseBoolD (getField fs "force") "force" false
    .ok ⟨id, force⟩
  | _ => .error "Expected object"

/-- Parser for `ListPostsArgsSchema` (strip-mode object schema, all fields defaulted or optional). -/
def parseListPostsArgs (v : JVal) : Except String ListPostsArgs :=
  match v with
  | .obj fs => do
    let per_page ← parseNumD (getField fs "per_page") "per_page" (some 1) (some 100) 10
    let page ← parseNumD (getField fs "page") "page" (some 1) none 1
    let status ← parseEnumD (getField fs "status") "status"
      ["publish", "draft", "private", "pending", "future", "any"] "any"
    let search ← parseOptStr (getField fs "search") "search" 0 none
    let author ← parseOptNum (getField fs "author") "author" none none
    let categories ← parseOptNumArr (getField fs "categories") "categories"
    let tags ← parseOptNumArr (getField fs "tags") "tags"
    let order ← parseEnumD (getField fs "order") "order" ["asc", "desc"] "desc"
    let orderby ← parseEnumD (getField fs "orderby") "orderby"
      ["date", "id", "title", "slug", "modified"] "date"
    let include_content ← parseBoolD (getField fs "include_content") "include_content" false
    .ok ⟨per_page, page, status, search, author, categories, tags, order, orderby, include_content⟩
  | _ => .error "Expected object"

/-- Parser for `GetPostArgsSchema` (strip-mode object schema). -/
def parseGetPostArgs (v : JVal) : Except String GetPostArgs :=
  match v with
  | .obj fs => do
    let id ← parseReqNum (getField fs "id") "id" (some 1) none
    let context ← parseEnumD (getField fs "context") "context" ["view", "embed", "edit"] "edit"
    .ok ⟨id, context⟩
  | _ => .error "Expected object"

/-- Parser for `GetCategoriesArgsSchema`, which carries `.strict()`. -/
def parseGetCategoriesArgs (v : JVal) : Except String GetCategoriesArgs :=
  match v with
  | .obj fs => do
    let _ ← checkStrict fs ["per_page", "page"]
    let per_page ← parseOptNum (getField fs "per_page") "per_page" (some 1) (some 100)
    let page ← parseOptNum (getField fs "page") "page" (some 1) none
    .ok ⟨per_page, page⟩
  | _ => .error "Expected object"

/-- Parser for `GetTagsArgsSchema`, which carries `.strict()`. -/
def parseGetTagsArgs (v : JVal) : Except String GetTagsArgs :=
  match v with
  | .obj fs => do
    let _ ← checkStrict fs ["per_page", "page"]
    let per_page ← parseOptNum (getField fs "per_page") "per_page" (some 1) (some 100)
    let page ← parseOptNum (getField fs "page") "page" (some 1) none
    .ok ⟨per_page, page⟩
  | _ => .error "Expected object"

/-- Model of the `REQUEST_TIMEOUT` configuration field:
`loadConfig` (src/index.ts) substitutes 30000 when the variable is unset or
empty, then `ConfigSchema` applies `z.coerce.number().min(1000).max(60000).default(30000)`.
The input is the numeric value of the variable, `none` when it is unset. -/
def parseRequestTimeout (mv : Option Int) : Except String Int :=
  match mv with
  | none => .ok 30000
  | some n =>
    if n < 1000 then
      .error "REQUEST_TIMEOUT: Number must be greater than or equal to 1000"
    else if 60000 < n then
      .error "REQUEST_TIMEOUT: Number must be less than or equal to 60000"
    else .ok n

/-! Remote content client (src/wordpress-api.ts): URL normalization, payload
shaping for create/update, and failure classification. -/

/-- Normalization of the configured base URL (`normalizeUrl`): the regex
`/\/$/` strips one trailing slash, then the fixed API segment is appended. -/
def normalizeUrl (url : String) : String :=
  (if url.data.getLast? = some '/' then (⟨url.data.dropLast⟩ : String) else url)
    ++ "/wp-json/wp/v2"

/-- Text field of an outgoing post payload: the source only ever builds the
`{ raw: s }` form, but the wire format also admits a rendered form. -/
inductive TextPayload where
  | raw (s : String)
  | rendered (s : String)
deriving DecidableEq

/-- Value of one key of an outgoing post payload. -/
inductive PayloadVal where
  | textField (t : TextPayload)
  | strVal (s : String)
  | numListVal (ns : List Int)
deriving DecidableEq

/-- Payload entry added under a JS truthiness test on an optional string
(`if (args.x) data.x = …` / `...(args.x && { x: … })`): a present empty
string is falsy and produces no entry. -/
def truthyStrEntry (name : String) (o : Option String) (mk : String → PayloadVal) :
    List (String × PayloadVal) :=
  match o with
  | some s => if s = "" then [] else [(name, mk s)]
  | none => []

/-- Payload entry added under a JS truthiness test on an optional numeric
array: any array (even an empty one) is truthy, so presence decides. -/
def presentArrEntry (name : String) (o : Option (List Int)) : List (String × PayloadVal) :=
  match o with
  | some ns => [(name, .numListVal ns)]
  | none => []

/-- Payload built by `createPost`: title/content always as `{raw}`, status
always present, excerpt/categories/tags spread in only when truthy. -/
def createPostPayload (a : CreatePostArgs) : List (String × PayloadVal) :=
  [("title", .textField (.raw a.title)),
   ("content", .textField (.raw a.content)),
   ("status", .strVal a.status)]
  ++ truthyStrEntry "excerpt" a.excerpt (fun e => .textField (.raw e))
  ++ presentArrEntry "categories" a.categories
  ++ presentArrEntry "tags" a.tags

/-- Payload built by `updatePost`: each field is added under a JS truthiness
test (`if (args.title) updateData.title = { raw: args.title }` …), so a
present-but-empty string is skipped while a present empty array is sent. -/
def updatePostPayload (a : UpdatePostArgs) : List (String × PayloadVal) :=
  truthyStrEntry "title" a.title (fun t => .textField (.raw t))
  ++ truthyStrEntry "content" a.content (fun c => .textField (.raw c))
  ++ truthyStrEntry "status" a.status (fun s => .strVal s)
  ++ truthyStrEntry "excerpt" a.excerpt (fun e => .textField (.raw e))
  ++ presentArrEntry "categories" a.categories
  ++ presentArrEntry "tags" a.tags

/-- Key set of an outgoing payload. -/
def payloadKeys (pl : List (String × PayloadVal)) : List String :=
  pl.map Prod.fst

/-- Whether a payload carries a rendered text form anywhere. -/
def containsRendered (pl : List (String × PayloadVal)) : Bool :=
  pl.any fun p =>
    match p.2 with
    | .textField (.rendered _) => true
    | _ => false

/-- Error body of a failed HTTP response as far as `handleApiError` reads it
(`wpError?.code`, `wpError?.message`; a non-object body reads as neither). -/
structure ErrorBody where
  code : Option String
  message : Option String
deriving DecidableEq

/-- Failed axios request: `response` is absent for network errors and
timeouts, otherwise carries the HTTP status and the parsed body. -/
structure AxiosFailure where
  response : Option (Int × Option ErrorBody)
  message : String
deriving DecidableEq

/-- Classified error thrown as `WordPressError`. -/
structure WordPressErrorS where
  message : String
  code : String
  statusCode : Option Int
deriving DecidableEq

/-- Failure classification (`handleApiError`): no response means network
error; otherwise the status code is switched on, and the default branch
falls back to the body's own code/message under JS `||`. -/
def handleApiError (e : AxiosFailure) : WordPressErrorS :=
  match e.response with
  | none => ⟨"Network error: " ++ e.message, "NETWORK_ERROR", none⟩
  | some (status, body) =>
    if status = 401 then
      ⟨"Invalid credentials. Check your username and application password.",
       "AUTHENTICATION_ERROR", some 401⟩
    else if status = 403 then
      ⟨"Insufficient permissions. Check user role and capabilities.",
       "PERMISSION_ERROR", some 403⟩
    else if status = 404 then
      ⟨"WordPress API endpoint not found. Check if REST API is enabled.",
       "NOT_FOUND_ERROR", some 404⟩
    else if status = 429 then
      ⟨"Rate limit exceeded. Please wait before making more requests.",
       "RATE_LIMIT_ERROR", some 429⟩
    else
      ⟨jsOrStr (body.bind (fun b => b.message)) ("WordPress API error (" ++ toString status ++ ")"),
       jsOrStr (body.bind (fun b => b.code)) "API_ERROR",
       some status⟩

/-! Tool dispatcher and response formatting (src/index.ts). -/

/-- Configuration value produced by `loadConfig` (src/types.ts `ConfigSchema`). -/
structure Config where
  WORDPRESS_URL : String
  WORDPRESS_USERNAME : String
  WORDPRESS_APP_PASSWORD : String
  MCP_SERVER_NAME : String
  MCP_SERVER_VERSION : String
  LOG_LEVEL : String
  REQUEST_TIMEOUT : Int
deriving DecidableEq

/-- Pair of representations of a post text field as returned by the service. -/
structure RenderedField where
  rendered : Option String
  raw : Option String
deriving DecidableEq

/-- Post object returned by the remote service, with the fields the
formatters read (`post.title?.rendered`, `post.modified`, …). -/
structure WordPressPostS where
  id : Option Int
  title : Option RenderedField
  content : Option RenderedField
  excerpt : Option RenderedField
  status : String
  link : Option String
  date : Option String
  modified : Option String
deriving DecidableEq

/-- Category object returned by the remote service. -/
structure WPCategory where
  id : Int
  name : String
  slug : String
  count : Int
deriving DecidableEq

/-- Tag object returned by the remote service. -/
structure WPTag where
  id : Int
  name : String
  slug : String
  count : Int
deriving DecidableEq

/-- Response content block handed back to the protocol layer. -/
structure ToolResponse where
  text : String
  isError : Bool
deriving DecidableEq

/-- Errors reaching the dispatcher's catch block, tagged by the
`instanceof` chain of `handleToolError`. -/
inductive ToolError where
  | zodError (joinedIssues : String)
  | wordpressError (e : WordPressErrorS)
  | validationError (message : String) (field : Option String)
  | mcpError (message : String)
  | otherError (message : String)
deriving DecidableEq

/-- Uniform error formatting (`handleToolError`): a thrown `McpError` is none
of ZodError/WordPressError/ValidationError, so it lands in the generic
`instanceof Error` branch together with every other fault. -/
def handleToolError (e : ToolError) (toolName : String) : ToolResponse :=
  match e with
  | .zodError issues => ⟨"❌ Validation Error: " ++ issues, true⟩
  | .wordpressError w => ⟨"❌ WordPress Error (" ++ w.code ++ "): " ++ w.message, true⟩
  | .validationError m f =>
    ⟨"❌ Validation Error: " ++ m ++
      (match f with
       | some fd => " (Field: " ++ fd ++ ")"
       | none => ""), true⟩
  | .mcpError m => ⟨"❌ Error executing " ++ toolName ++ ": " ++ m, true⟩
  | .otherError m => ⟨"❌ Error executing " ++ toolName ++ ": " ++ m, true⟩

/-- Title shown in list lines: `(post.title?.rendered || post.title?.raw || 'Untitled').trim()`. -/
def listTitle (p : WordPressPostS) : String :=
  jsTrim (jsOrStr (p.title.bind (fun t => t.rendered))
    (jsOrStr (p.title.bind (fun t => t.raw)) "Untitled"))

/-- Modified-date column: `post.modified ? post.modified.split('T')[0] : 'N/A'`. -/
def listModified (p : WordPressPostS) : String :=
  match jsTruthy p.modified with
  | some m => splitTfirst m
  | none => "N/A"

/-- Second line of a list item (`include_content` branch of `handleListPosts`):
emitted only when requested and the rendered content is truthy; the ellipsis
is appended when the 150-character cut has length at least 150. -/
def listContentSuffix (includeContent : Bool) (contentRendered : Option String) : String :=
  match includeContent, jsTruthy contentRendered with
  | true, some r =>
    "\n  Content: " ++ jsSubstring r 150 ++
      (if 150 ≤ (jsSubstring r 150).length then "..." else "")
  | _, _ => ""

/-- One list item line of `handleListPosts`. -/
def formatPostLine (a : ListPostsArgs) (p : WordPressPostS) : String :=
  "• ID: " ++ optIntStr p.id ++ " | " ++ listTitle p ++ " | Status: " ++ p.status ++
    " | Modified: " ++ listModified p ++
    listContentSuffix a.include_content (p.content.bind (fun c => c.rendered))

/-- Pagination echo of `handleListPosts`: a JS truthiness test on the
validated (hence already defaulted) `page`/`per_page` values. -/
def listPaginationInfo (a : ListPostsArgs) : String :=
  if a.page ≠ 0 ∨ a.per_page ≠ 0 then
    " (Page " ++ toString (jsOrInt a.page 1) ++ ", " ++ toString (jsOrInt a.per_page 10) ++
      " per page)"
  else ""

/-- Success text of `handleListPosts`. -/
def handleListPostsText (a : ListPostsArgs) (posts : List WordPressPostS) : String :=
  match posts with
  | [] => "No WordPress posts found matching the criteria."
  | _ =>
    "Found " ++ toString posts.length ++ " WordPress posts" ++ listPaginationInfo a ++
      ":\n\n" ++ String.intercalate "\n\n" (posts.map (formatPostLine a))

/-- Success text of `handleCreatePost`. -/
def createSuccessText (p : WordPressPostS) : String :=
  "WordPress post created successfully!\n\nID: " ++ optIntStr p.id ++
    "\nTitle: " ++ jsOrStr (p.title.bind (fun t => t.rendered)) "Untitled" ++
    "\nStatus: " ++ p.status ++
    "\nURL: " ++ jsOrStr p.link "N/A" ++
    "\n\nContent preview: " ++
    jsOrStr ((p.content.bind (fun c => c.rendered)).map (fun s => jsSubstring s 200))
      "No content" ++ "..."

/-- Success text of `handleUpdatePost`. -/
def updateSuccessText (p : WordPressPostS) : String :=
  "WordPress post updated successfully!\n\nID: " ++ optIntStr p.id ++
    "\nTitle: " ++ jsOrStr (p.title.bind (fun t => t.rendered)) "Untitled" ++
    "\nStatus: " ++ p.status ++
    "\nURL: " ++ jsOrStr p.link "N/A" ++
    "\nLast modified: " ++ jsOrStr p.modified "N/A"

/-- Success text of `handleDeletePost`: the action wording is derived from
the validated `force` argument, not from the response. -/
def deleteSuccessText (force : Bool) (deleted : Bool) (previous : WordPressPostS) : String :=
  "WordPress post " ++ (if force then "permanently deleted" else "moved to trash") ++
    " successfully!\n\nID: " ++ optIntStr previous.id ++
    "\nTitle: " ++ jsOrStr (previous.title.bind (fun t => t.rendered)) "Untitled" ++
    "\nDeleted: " ++ (if deleted then "true" else "false")

/-- Date column of `handleGetPost`. -/
def dateOrNA (o : Option String) : String :=
  match jsTruthy o with
  | some d => splitTfirst d
  | none => "N/A"

/-- Success text of `handleGetPost`. -/
def getPostSuccessText (p : WordPressPostS) : String :=
  "WordPress Post Details:\n\nID: " ++ optIntStr p.id ++
    "\nTitle: " ++ listTitle p ++
    "\nStatus: " ++ p.status ++
    "\nURL: " ++ jsOrStr p.link "N/A" ++
    "\nPublished: " ++ dateOrNA p.date ++
    "\nModified: " ++ dateOrNA p.modified ++
    "\n\nExcerpt:\n" ++
    jsTrim (jsOrStr (p.excerpt.bind (fun x => x.rendered))
      (jsOrStr (p.excerpt.bind (fun x => x.raw)) "")) ++
    "\n\nContent:\n" ++
    jsOrStr (p.content.bind (fun c => c.raw))
      (jsOrStr (p.content.bind (fun c => c.rendered)) "No content available")

/-- Success text of `handleTestConnection`: PASSED/FAILED banner, message,
configured URL and username (the application password is never read here). -/
def testConnectionText (cfg : Config) (success : Bool) (message : String) : String :=
  "WordPress connection test " ++ (if success then "PASSED" else "FAILED") ++
    "\n\nMessage: " ++ message ++
    "\n\nURL: " ++ cfg.WORDPRESS_URL ++
    "\nUsername: " ++ cfg.WORDPRESS_USERNAME

/-- Pagination echo of `handleGetCategories`/`handleGetTags` (here the
validated fields are genuinely optional, so the test is not vacuous). -/
def taxPaginationInfo (page per_page : Option Int) (perPageDefault : Int) : String :=
  if truthyOptInt page || truthyOptInt per_page then
    " (Page " ++ toString (jsOrOptInt page 1) ++ ", " ++
      toString (jsOrOptInt per_page perPageDefault) ++ " per page)"
  else ""

/-- Success text of `handleGetCategories`. -/
def getCategoriesText (a : GetCategoriesArgs) (cats : List WPCategory) : String :=
  match cats with
  | [] =>
    let pageNum := jsOrOptInt a.page 1
    if 1 < pageNum then
      "No WordPress categories found on page " ++ toString pageNum ++
        ". Try a lower page number."
    else "No WordPress categories found."
  | _ =>
    "WordPress Categories (" ++ toString cats.length ++ ")" ++
      taxPaginationInfo a.page a.per_page 100 ++ ":\n\n" ++
      String.intercalate "\n"
        (cats.map fun c =>
          "• ID: " ++ toString c.id ++ " | " ++ c.name ++ " | Slug: " ++ c.slug ++
            " | Posts: " ++ toString (jsOrInt c.count 0))

/-- Success text of `handleGetTags`. -/
def getTagsText (a : GetTagsArgs) (tags : List WPTag) : String :=
  match tags with
  | [] =>
    let pageNum := jsOrOptInt a.page 1
    if 1 < pageNum then
      "No WordPress tags found on page " ++ toString pageNum ++ ". Try a lower page number."
    else "No WordPress tags found."
  | _ =>
    "WordPress Tags (" ++ toString tags.length ++ ")" ++
      taxPaginationInfo a.page a.per_page 100 ++ ":\n\n" ++
      String.intercalate "\n"
        (tags.map fun t =>
          "• ID: " ++ toString t.id ++ " | " ++ t.name ++ " | Slug: " ++ t.slug ++
            " | Posts: " ++ toString (jsOrInt t.count 0))

/-- Data returned by the one outbound call an invocation makes. -/
inductive RemoteData where
  | posts (ps : List WordPressPostS)
  | post (p : WordPressPostS)
  | deleteResult (deleted : Bool) (previous : WordPressPostS)
  | categories (cs : List WPCategory)
  | tags (ts : List WPTag)
deriving DecidableEq

/-- Outcome of the one outbound call: data, or a failure the axios
interceptor hands to `handleApiError`. -/
inductive RemoteOutcome where
  | data (d : RemoteData)
  | failure (e : AxiosFailure)
deriving DecidableEq

/-- Handler for `create_wordpress_post`: validate, call, format. -/
def handleCreatePost (args : JVal) (remote : RemoteOutcome) : Except ToolError ToolResponse :=
  match parseCreatePostArgs args with
  | .error m => .error (.zodError m)
  | .ok _ =>
    match remote with
    | .failure e => .error (.wordpressError (handleApiError e))
    | .data (.post p) => .ok ⟨createSuccessText p, false⟩
    | .data _ => .error (.otherError "Unknown error occurred")

/-- Handler for `update_wordpress_post`. -/
def handleUpdatePost (args : JVal) (remote : RemoteOutcome) : Except ToolError ToolResponse :=
  match parseUpdatePostArgs args with
  | .error m => .error (.zodError m)
  | .ok _ =>
    match remote with
    | .failure e => .error (.wordpressError (handleApiError e))
    | .data (.post p) => .ok ⟨updateSuccessText p, false⟩
    | .data _ => .error (.otherError "Unknown error occurred")

/-- Handler for `delete_wordpress_post`. -/
def handleDeletePost (args : JVal) (remote : RemoteOutcome) : Except ToolError ToolResponse :=
  match parseDeletePostArgs args with
  | .error m => .error (.zodError m)
  | .ok a =>
    match remote with
    | .failure e => .error (.wordpressError (handleApiError e))
    | .data (.deleteResult deleted previous) =>
      .ok ⟨deleteSuccessText a.force deleted previous, false⟩
    | .data _ => .error (.otherError "Unknown error occurred")

/-- Handler for `list_wordpress_posts`. -/
def handleListPosts (args : JVal) (remote : RemoteOutcome) : Except ToolError ToolResponse :=
  match parseListPostsArgs args with
  | .error m => .error (.zodError m)
  | .ok a =>
    match remote with
    | .failure e => .error (.wordpressError (handleApiError e))
    | .data (.posts ps) => .ok ⟨handleListPostsText a ps, false⟩
    | .data _ => .error (.otherError "Unknown error occurred")

/-- Handler for `test_wordpress_connection`: `testConnection` converts every
classified failure into a reported FAILED status, so this handler never
raises. -/
def handleTestConnection (cfg : Config) (remote : RemoteOutcome) : Except ToolError ToolResponse :=
  match remote with
  | .data _ => .ok ⟨testConnectionText cfg true "Connection successful", false⟩
  | .failure e => .ok ⟨testConnectionText cfg false (handleApiError e).message, false⟩

/-- Handler for `get_wordpress_post`. -/
def handleGetPost (args : JVal) (remote : RemoteOutcome) : Except ToolError ToolResponse :=
  match parseGetPostArgs args with
  | .error m => .error (.zodError m)
  | .ok _ =>
    match remote with
    | .failure e => .error (.wordpressError (handleApiError e))
    | .data (.post p) => .ok ⟨getPostSuccessText p, false⟩
    | .data _ => .error (.otherError "Unknown error occurred")

/-- Handler for `get_wordpress_categories`. -/
def handleGetCategories (args : JVal) (remote : RemoteOutcome) : Except ToolError ToolResponse :=
  match parseGetCategoriesArgs args with
  | .error m => .error (.zodError m)
  | .ok a =>
    match remote with
    | .failure e => .error (.wordpressError (handleApiError e))
    | .data (.categories cs) => .ok ⟨getCategoriesText a cs, false⟩
    | .data _ => .error (.otherError "Unknown error occurred")

/-- Handler for `get_wordpress_tags`. -/
def handleGetTags (args : JVal) (remote : RemoteOutcome) : Except ToolError ToolResponse :=
  match parseGetTagsArgs args with
  | .error m => .error (.zodError m)
  | .ok a =>
    match remote with
    | .failure e => .error (.wordpressError (handleApiError e))
    | .data (.tags ts) => .ok ⟨getTagsText a ts, false⟩
    | .data _ => .error (.otherError "Unknown error occurred")

/-- The tool switch of the `CallToolRequestSchema` handler. A value in the
error component is a fault thrown inside the `try` block; the default branch
throws an `McpError` with code `MethodNotFound`, whose `Error.message` the
protocol SDK sets to the shown string. -/
def dispatchTool (cfg : Config) (name : String) (args : JVal) (remote : RemoteOutcome) :
    Except ToolError ToolResponse :=
  if name = "create_wordpress_post" then handleCreatePost args remote
  else if name = "update_wordpress_post" then handleUpdatePost args remote
  else if name = "delete_wordpress_post" then handleDeletePost args remote
  else if name = "list_wordpress_posts" then handleListPosts args remote
  else if name = "test_wordpress_connection" then handleTestConnection cfg remote
  else if name = "get_wordpress_post" then handleGetPost args remote
  else if name = "get_wordpress_categories" then handleGetCategories args remote
  else if name = "get_wordpress_tags" then handleGetTags args remote
  else .error (.mcpError ("MCP error -32601: Unknown tool: " ++ name))

/-- The eight defined tool names. -/
def knownToolNames : List String :=
  ["create_wordpress_post", "update_wordpress_post", "delete_wordpress_post",
   "list_wordpress_posts", "test_wordpress_connection", "get_wordpress_post",
   "get_wordpress_categories", "get_wordpress_tags"]

/-- Whole invocation as seen by the protocol layer: the surrounding
`try`/`catch` turns every fault into a `handleToolError` response, so a
`ToolResponse` always comes back and no fault propagates. -/
def callTool (cfg : Config) (name : String) (args : JVal) (remote : RemoteOutcome) :
    ToolResponse :=
  match dispatchTool cfg name args remote with
  | .ok r => r
  | .error e => handleToolError e name

/-- Error code carried by the body of a failed response, as
`handleApiError` reads it (`wpError?.code`). -/
def bodyCode (body : Option ErrorBody) : Option String :=
  body.bind (fun b => b.code)

/-! Concrete sample values used by the claim theorems. -/

/-- Fully-defaulted value `ListPostsArgsSchema.parse({})` produces. -/
def listArgsDefault : ListPostsArgs :=
  ⟨10, 1, "any", none, none, none, none, "desc", "date", false⟩

/-- Sample post for the list-formatting scenarios. -/
def c1SamplePost : WordPressPostS :=
  ⟨some 1, some ⟨some "Hi", none⟩, none, none, "publish", none, none,
   some "2024-01-02T03:04:05"⟩

/-- Sample configuration for the dispatch scenarios. -/
def sampleConfig : Config :=
  ⟨"https://example.com", "admin", "secret-app-password", "wordpress-mcp", "1.0.0",
   "info", 30000⟩

/-- List arguments with `include_content` requested. -/
def listArgsWithContent : ListPostsArgs :=
  ⟨10, 1, "any", none, none, none, none, "desc", "date", true⟩

/-- String of exactly 150 characters. -/
def s150 : String :=
  ⟨List.replicate 150 'a'⟩

/-- Post whose rendered content has exactly 150 characters. -/
def c10SamplePost : WordPressPostS :=
  ⟨some 1, some ⟨some "T", none⟩, some ⟨some s150, none⟩, none, "publish", none, none,
   some "2024-01-02T10:00:00"⟩

/-- Validated update arguments holding only `id` and an empty excerpt. -/
def updateArgsEmptyExcerpt : UpdatePostArgs :=
  ⟨1, none, none, none, some "", none, none⟩

/-- Validated create arguments of the Hello-World scenario. -/
def helloArgs : CreatePostArgs :=
  ⟨"Hello World", "Body", "draft", none, none, none⟩

/-! Helper lemmas about the embedding. -/

theorem except_bind_ok {ε α β : Type} {x : Except ε α} {f : α → Except ε β} {b : β}
    (h : x >>= f = .ok b) : ∃ a, x = .ok a ∧ f a = .ok b := by
  cases x with
  | error e => simp [Bind.bind, Except.bind] at h
  | ok a => exact ⟨a, rfl, by simpa [Bind.bind, Except.bind] using h⟩

theorem checkStrBounds_ok {key : String} {minLen : Nat} {maxLen : Option Nat} {s t : String}
    (h : checkStrBounds key minLen maxLen s = .ok t) : t = s ∧ minLen ≤ s.length := by
  unfold checkStrBounds at h
  split at h
  · exact absurd h (by simp)
  · next hlt =>
    split at h
    · split at h
      · exact absurd h (by simp)
      · cases h
        exact ⟨rfl, Nat.le_of_not_lt hlt⟩
    · cases h
      exact ⟨rfl, Nat.le_of_not_lt hlt⟩

theorem parseOptStr_ok_min {mv : Option JVal} {key : String} {minLen : Nat}
    {maxLen : Option Nat} {r : Option String} {s : String}
    (h : parseOptStr mv key minLen maxLen = .ok r) (hr : r = some s) :
    minLen ≤ s.length := by
  subst hr
  cases mv with
  | none => simp [parseOptStr] at h
  | some jv =>
    cases jv with
    | str t =>
      simp only [parseOptStr] at h
      cases hcb : checkStrBounds key minLen maxLen t with
      | error e => rw [hcb] at h; simp [Except.map] at h
      | ok u =>
        rw [hcb] at h
        have hus : u = s := by simpa [Except.map] using h
        obtain ⟨hut, hle⟩ := checkStrBounds_ok hcb
        rw [← hus, hut]
        exact hle
    | null => simp [parseOptStr] at h
    | bool b => simp [parseOptStr] at h
    | num n => simp [parseOptStr] at h
    | arr xs => simp [parseOptStr] at h
    | obj gs => simp [parseOptStr] at h

theorem parseEnumOpt_ok_mem {mv : Option JVal} {key : String} {options : List String}
    {r : Option String} {s : String}
    (h : parseEnumOpt mv key options = .ok r) (hr : r = some s) :
    options.contains s = true := by
  subst hr
  cases mv with
  | none => simp [parseEnumOpt] at h
  | some jv =>
    cases jv with
    | str t =>
      simp only [parseEnumOpt] at h
      split at h
      · next hc =>
        simp only [Except.ok.injEq, Option.some.injEq] at h
        subst h
        exact hc
      · simp at h
    | null => simp [parseEnumOpt] at h
    | bool b => simp [parseEnumOpt] at h
    | num n => simp [parseEnumOpt] at h
    | arr xs => simp [parseEnumOpt] at h
    | obj gs => simp [parseEnumOpt] at h

theorem getField_append_single (fs : List (String × JVal)) (k : String) (w : JVal)
    (d : String) (h : d ≠ k) : getField (fs ++ [(k, w)]) d = getField fs d := by
  induction fs with
  | nil =>
    simp only [List.nil_append, getField]
    exact if_neg (fun hk => h hk.symm)
  | cons p rest ih =>
    obtain ⟨pk, pv⟩ := p
    simp only [List.cons_append, getField]
    split
    · rfl
    · exact ih

theorem mem_keys_truthyStrEntry {d name : String} {o : Option String}
    {mk : String → PayloadVal} :
    d ∈ payloadKeys (truthyStrEntry name o mk) ↔ d = name ∧ ∃ s, o = some s ∧ s ≠ "" := by
  cases o with
  | none => simp [truthyStrEntry, payloadKeys]
  | some s =>
    by_cases hs : s = ""
    · subst hs
      simp [truthyStrEntry, payloadKeys]
    · simp [truthyStrEntry, payloadKeys, hs]

theorem mem_keys_presentArrEntry {d name : String} {o : Option (List Int)} :
    d ∈ payloadKeys (presentArrEntry name o) ↔ d = name ∧ o.isSome := by
  cases o <;> simp [presentArrEntry, payloadKeys]

theorem payloadKeys_append (l₁ l₂ : List (String × PayloadVal)) :
    payloadKeys (l₁ ++ l₂) = payloadKeys l₁ ++ payloadKeys l₂ :=
  List.map_append _ _ _

theorem exists_truthy_iff_isSome (o : Option String) (hne : ∀ s, o = some s → s ≠ "") :
    (∃ s, o = some s ∧ s ≠ "") ↔ o.isSome := by
  cases o with
  | none => simp
  | some s => simp [hne s rfl]

theorem parseUpdatePostArgs_ok_inv {v : JVal} {a : UpdatePostArgs}
    (h : parseUpdatePostArgs v = .ok a) :
    (∀ s, a.title = some s → s ≠ "") ∧ (∀ s, a.content = some s → s ≠ "")
    ∧ (∀ s, a.status = some s → s ≠ "") := by
  cases v with
  | obj fs =>
    simp only [parseUpdatePostArgs] at h
    obtain ⟨id, hid, h⟩ := except_bind_ok h
    obtain ⟨title, htitle, h⟩ := except_bind_ok h
    obtain ⟨content, hcontent, h⟩ := except_bind_ok h
    obtain ⟨status, hstatus, h⟩ := except_bind_ok h
    obtain ⟨excerpt, hexcerpt, h⟩ := except_bind_ok h
    obtain ⟨categories, hcategories, h⟩ := except_bind_ok h
    obtain ⟨tags, htags, h⟩ := except_bind_ok h
    simp only [Except.ok.injEq] at h
    subst h
    refine ⟨?_, ?_, ?_⟩
    · intro s hs hempty
      subst hempty
      have hlen := parseOptStr_ok_min htitle hs
      simp at hlen
    · intro s hs hempty
      subst hempty
      have hlen := parseOptStr_ok_min hcontent hs
      simp at hlen
    · intro s hs hempty
      subst hempty
      have hmem := parseEnumOpt_ok_mem hstatus hs
      exact absurd hmem (by decide)
  | null => simp [parseUpdatePostArgs] at h
  | bool b => simp [parseUpdatePostArgs] at h
  | num n => simp [parseUpdatePostArgs] at h
  | str s => simp [parseUpdatePostArgs] at h
  | arr xs => simp [parseUpdatePostArgs] at h

theorem parseCreatePostArgs_ignores_unknown (fs : List (String × JVal)) (k : String) (w : JVal)
    (hk : k ∉ ["title", "content", "status", "excerpt", "categories", "tags"]) :
    parseCreatePostArgs (.obj (fs ++ [(k, w)])) = parseCreatePostArgs (.obj fs) := by
  have hne : ∀ d, d ∈ ["title", "content", "status", "excerpt", "categories", "tags"] →
      d ≠ k := fun d hd hdk => hk (hdk ▸ hd)
  simp only [parseCreatePostArgs,
    getField_append_single fs k w "title" (hne "title" (by decide)),
    getField_append_single fs k w "content" (hne "content" (by decide)),
    getField_append_single fs k w "status" (hne "status" (by decide)),
    getField_append_single fs k w "excerpt" (hne "excerpt" (by decide)),
    getField_append_single fs k w "categories" (hne "categories" (by decide)),
    getField_append_single fs k w "tags" (hne "tags" (by decide))]

theorem parseUpdatePostArgs_ignores_unknown (fs : List (String × JVal)) (k : String) (w : JVal)
    (hk : k ∉ ["id", "title", "content", "status", "excerpt", "categories", "tags"]) :
    parseUpdatePostArgs (.obj (fs ++ [(k, w)])) = parseUpdatePostArgs (.obj fs) := by
  have hne : ∀ d, d ∈ ["id", "title", "content", "status", "excerpt", "categories", "tags"] →
      d ≠ k := fun d hd hdk => hk (hdk ▸ hd)
  simp only [parseUpdatePostArgs,
    getField_append_single fs k w "id" (hne "id" (by decide)),
    getField_append_single fs k w "title" (hne "title" (by decide)),
    getField_append_single fs k w "content" (hne "content" (by decide)),
    getField_append_single fs k w "status" (hne "status" (by decide)),
    getField_append_single fs k w "excerpt" (hne "excerpt" (by decide)),
    getField_append_single fs k w "categories" (hne "categories" (by decide)),
    getField_append_single fs k w "tags" (hne "tags" (by decide))]

theorem parseDeletePostArgs_ignores_unknown (fs : List (String × JVal)) (k : String) (w : JVal)
    (hk : k ∉ ["id", "force"]) :
    parseDeletePostArgs (.obj (fs ++ [(k, w)])) = parseDeletePostArgs (.obj fs) := by
  have hne : ∀ d, d ∈ ["id", "force"] → d ≠ k := fun d hd hdk => hk (hdk ▸ hd)
  simp only [parseDeletePostArgs,
    getField_append_single fs k w "id" (hne "id" (by decide)),
    getField_append_single fs k w "force" (hne "force" (by decide))]

theorem parseListPostsArgs_ignores_unknown (fs : List (String × JVal)) (k : String) (w : JVal)
    (hk : k ∉ ["per_page", "page", "status", "search", "author", "categories", "tags",
      "order", "orderby", "include_content"]) :
    parseListPostsArgs (.obj (fs ++ [(k, w)])) = parseListPostsArgs (.obj fs) := by
  have hne : ∀ d, d ∈ ["per_page", "page", "status", "search", "author", "categories",
      "tags", "order", "orderby", "include_content"] → d ≠ k :=
    fun d hd hdk => hk (hdk ▸ hd)
  simp only [parseListPostsArgs,
    getField_append_single fs k w "per_page" (hne "per_page" (by decide)),
    getField_append_single fs k w "page" (hne "page" (by decide)),
    getField_append_single fs k w "status" (hne "status" (by decide)),
    getField_append_single fs k w "search" (hne "search" (by decide)),
    getField_append_single fs k w "author" (hne "author" (by decide)),
    getField_append_single fs k w "categories" (hne "categories" (by decide)),
    getField_append_single fs k w "tags" (hne "tags" (by decide)),
    getField_append_single fs k w "order" (hne "order" (by decide)),
    getField_append_single fs k w "orderby" (hne "orderby" (by decide)),
    getField_append_single fs k w "include_content" (hne "include_content" (by decide))]

theorem parseGetPostArgs_ignores_unknown (fs : List (String × JVal)) (k : String) (w : JVal)
    (hk : k ∉ ["id", "context"]) :
    parseGetPostArgs (.obj (fs ++ [(k, w)])) = parseGetPostArgs (.obj fs) := by
  have hne : ∀ d, d ∈ ["id", "context"] → d ≠ k := fun d hd hdk => hk (hdk ▸ hd)
  simp only [parseGetPostArgs,
    getField_append_single fs k w "id" (hne "id" (by decide)),
    getField_append_single fs k w "context" (hne "context" (by decide))]

theorem checkStrict_rejects {fs : List (String × JVal)} {allowed : List String}
    (h : ∃ p ∈ fs, p.1 ∉ allowed) :
    checkStrict fs allowed = .error "Unrecognized key(s) in object" := by
  have hall : fs.all (fun p => allowed.contains p.1) = false := by
    obtain ⟨p, hp, hnp⟩ := h
    cases hb : fs.all (fun p => allowed.contains p.1) with
    | false => rfl
    | true =>
      have hc := List.all_eq_true.mp hb p hp
      exact absurd (List.mem_of_elem_eq_true hc) hnp
  unfold checkStrict
  rw [hall]
  rfl

theorem parseGetCategoriesArgs_strict (fs : List (String × JVal))
    (h : ∃ p ∈ fs, p.1 ∉ ["per_page", "page"]) :
    parseGetCategoriesArgs (.obj fs) = .error "Unrecognized key(s) in object" := by
  have hc := checkStrict_rejects h
  simp only [parseGetCategoriesArgs, hc]
  rfl

theorem parseGetTagsArgs_strict (fs : List (String × JVal))
    (h : ∃ p ∈ fs, p.1 ∉ ["per_page", "page"]) :
    parseGetTagsArgs (.obj fs) = .error "Unrecognized key(s) in object" := by
  have hc := checkStrict_rejects h
  simp only [parseGetTagsArgs, hc]
  rfl

/-! Claim theorems. -/

/-- C1: the claim states that the pagination suffix appears in the
`list_wordpress_posts` response iff `page` or `per_page` was explicitly
supplied, and that a call with no arguments validates to the stated
defaults with no pagination echo. The defaults are as claimed, but the
schema's defaulting makes the validated `page`/`per_page` always nonzero,
so the truthiness test `validatedArgs.page || validatedArgs.per_page`
(index.ts:459) is vacuously true and the response of an argument-free
invocation does echo `(Page 1, 10 per page)`. -/
theorem c1_pagination_echoed_without_explicit_args :
    parseListPostsArgs (.obj []) = .ok listArgsDefault
    ∧ listArgsDefault = ⟨10, 1, "any", none, none, none, none, "desc", "date", false⟩
    ∧ listPaginationInfo listArgsDefault = " (Page 1, 10 per page)"
    ∧ handleListPostsText listArgsDefault [c1SamplePost] =
        "Found 1 WordPress posts (Page 1, 10 per page):\n\n• ID: 1 | Hi | Status: publish | Modified: 2024-01-02" :=
  ⟨rfl, rfl, rfl, rfl⟩

/-- C2 counterexample: the claim states every operation's schema rejects
unknown properties, but `CreatePostArgsSchema` (no `.strict()`) accepts an
object carrying the undeclared property `bogus` and silently strips it. -/
theorem c2_counterexample :
    parseCreatePostArgs (.obj [("title", .str "a"), ("content", .str "b"), ("bogus", .num 1)])
      = .ok ⟨"a", "b", "draft", none, none, none⟩ := rfl

/-- C2 amended: only the list-categories/list-tags schemas are closed
(they reject any input object holding an undeclared property); the other
five operations' schemas ignore unknown properties, validating an input
with an extra undeclared property exactly as if it were absent. -/
theorem c2_amended :
    (∀ fs, (∃ p ∈ fs, p.1 ∉ ["per_page", "page"]) →
      ∃ m, parseGetCategoriesArgs (.obj fs) = .error m)
    ∧ (∀ fs, (∃ p ∈ fs, p.1 ∉ ["per_page", "page"]) →
      ∃ m, parseGetTagsArgs (.obj fs) = .error m)
    ∧ (∀ fs k w, k ∉ ["title", "content", "status", "excerpt", "categories", "tags"] →
      parseCreatePostArgs (.obj (fs ++ [(k, w)])) = parseCreatePostArgs (.obj fs))
    ∧ (∀ fs k w, k ∉ ["id", "title", "content", "status", "excerpt", "categories", "tags"] →
      parseUpdatePostArgs (.obj (fs ++ [(k, w)])) = parseUpdatePostArgs (.obj fs))
    ∧ (∀ fs k w, k ∉ ["id", "force"] →
      parseDeletePostArgs (.obj (fs ++ [(k, w)])) = parseDeletePostArgs (.obj fs))
    ∧ (∀ fs k w, k ∉ ["per_page", "page", "status", "search", "author", "categories",
        "tags", "order", "orderby", "include_content"] →
      parseListPostsArgs (.obj (fs ++ [(k, w)])) = parseListPostsArgs (.obj fs))
    ∧ (∀ fs k w, k ∉ ["id", "context"] →
      parseGetPostArgs (.obj (fs ++ [(k, w)])) = parseGetPostArgs (.obj fs)) :=
  ⟨fun fs h => ⟨_, parseGetCategoriesArgs_strict fs h⟩,
   fun fs h => ⟨_, parseGetTagsArgs_strict fs h⟩,
   fun fs k w hk => parseCreatePostArgs_ignores_unknown fs k w hk,
   fun fs k w hk => parseUpdatePostArgs_ignores_unknown fs k w hk,
   fun fs k w hk => parseDeletePostArgs_ignores_unknown fs k w hk,
   fun fs k w hk => parseListPostsArgs_ignores_unknown fs k w hk,
   fun fs k w hk => parseGetPostArgs_ignores_unknown fs k w hk⟩

/-- C2 witness: the amended statement applied at concrete inputs with the
undeclared property `bogus`. -/
theorem c2_amended_witness :
    (∃ m, parseGetCategoriesArgs (.obj [("bogus", .num 1)]) = .error m)
    ∧ (∃ m, parseGetTagsArgs (.obj [("bogus", .num 1)]) = .error m)
    ∧ parseCreatePostArgs
        (.obj ([("title", .str "a"), ("content", .str "b")] ++ [("bogus", .num 1)]))
      = parseCreatePostArgs (.obj [("title", .str "a"), ("content", .str "b")])
    ∧ parseUpdatePostArgs (.obj ([("id", .num 1)] ++ [("bogus", .num 1)]))
      = parseUpdatePostArgs (.obj [("id", .num 1)])
    ∧ parseDeletePostArgs (.obj ([("id", .num 1)] ++ [("bogus", .num 1)]))
      = parseDeletePostArgs (.obj [("id", .num 1)])
    ∧ parseListPostsArgs (.obj ([] ++ [("bogus", .num 1)])) = parseListPostsArgs (.obj [])
    ∧ parseGetPostArgs (.obj ([("id", .num 1)] ++ [("bogus", .num 1)]))
      = parseGetPostArgs (.obj [("id", .num 1)]) := by
  have h := c2_amended
  exact ⟨h.1 _ ⟨("bogus", .num 1), List.Mem.head _, by decide⟩,
    h.2.1 _ ⟨("bogus", .num 1), List.Mem.head _, by decide⟩,
    h.2.2.1 _ "bogus" (.num 1) (by decide),
    h.2.2.2.1 _ "bogus" (.num 1) (by decide),
    h.2.2.2.2.1 _ "bogus" (.num 1) (by decide),
    h.2.2.2.2.2.1 _ "bogus" (.num 1) (by decide),
    h.2.2.2.2.2.2 _ "bogus" (.num 1) (by decide)⟩

/-- C3 counterexample: the claim states any field present in the validated
update input is always sent, but `{id: 1, excerpt: ""}` validates with
`excerpt` present while the emitted payload (built under JS truthiness
tests in `updatePost`, wordpress-api.ts) has an empty key set. -/
theorem c3_counterexample :
    parseUpdatePostArgs (.obj [("id", .num 1), ("excerpt", .str "")])
      = .ok updateArgsEmptyExcerpt
    ∧ updateArgsEmptyExcerpt.excerpt = some ""
    ∧ payloadKeys (updatePostPayload updateArgsEmptyExcerpt) = [] :=
  ⟨rfl, rfl, rfl⟩

/-- C3 amended: for every validated update argument value, the payload's
key set is the set of optional fields present with a JS-truthy value:
title/content/status are sent iff present (validation forbids them being
empty), categories/tags are sent iff present (arrays are always truthy),
and excerpt is sent iff present and non-empty — a present empty-string
excerpt is the one present field that is not sent. No other key is sent. -/
theorem c3_amended (v : JVal) (a : UpdatePostArgs)
    (h : parseUpdatePostArgs v = .ok a) :
    ("title" ∈ payloadKeys (updatePostPayload a) ↔ a.title.isSome)
    ∧ ("content" ∈ payloadKeys (updatePostPayload a) ↔ a.content.isSome)
    ∧ ("status" ∈ payloadKeys (updatePostPayload a) ↔ a.status.isSome)
    ∧ ("excerpt" ∈ payloadKeys (updatePostPayload a) ↔ ∃ s, a.excerpt = some s ∧ s ≠ "")
    ∧ ("categories" ∈ payloadKeys (updatePostPayload a) ↔ a.categories.isSome)
    ∧ ("tags" ∈ payloadKeys (updatePostPayload a) ↔ a.tags.isSome)
    ∧ (∀ k, k ∈ payloadKeys (updatePostPayload a) →
        k ∈ ["title", "content", "status", "excerpt", "categories", "tags"]) := by
  obtain ⟨ht, hc, hs⟩ := parseUpdatePostArgs_ok_inv h
  refine ⟨?_, ?_, ?_, ?_, ?_, ?_, ?_⟩
  · have hm : ("title" ∈ payloadKeys (updatePostPayload a)) ↔
        (∃ s, a.title = some s ∧ s ≠ "") := by
      simp [updatePostPayload, payloadKeys_append, List.mem_append,
        mem_keys_truthyStrEntry, mem_keys_presentArrEntry]
    rw [hm]
    exact exists_truthy_iff_isSome _ ht
  · have hm : ("content" ∈ payloadKeys (updatePostPayload a)) ↔
        (∃ s, a.content = some s ∧ s ≠ "") := by
      simp [updatePostPayload, payloadKeys_append, List.mem_append,
        mem_keys_truthyStrEntry, mem_keys_presentArrEntry]
    rw [hm]
    exact exists_truthy_iff_isSome _ hc
  · have hm : ("status" ∈ payloadKeys (updatePostPayload a)) ↔
        (∃ s, a.status = some s ∧ s ≠ "") := by
      simp [updatePostPayload, payloadKeys_append, List.mem_append,
        mem_keys_truthyStrEntry, mem_keys_presentArrEntry]
    rw [hm]
    exact exists_truthy_iff_isSome _ hs
  · simp [updatePostPayload, payloadKeys_append, List.mem_append,
      mem_keys_truthyStrEntry, mem_keys_presentArrEntry]
  · simp [updatePostPayload, payloadKeys_append, List.mem_append,
      mem_keys_truthyStrEntry, mem_keys_presentArrEntry]
  · simp [updatePostPayload, payloadKeys_append, List.mem_append,
      mem_keys_truthyStrEntry, mem_keys_presentArrEntry]
  · intro k hk
    simp [updatePostPayload, payloadKeys_append, List.mem_append,
      mem_keys_truthyStrEntry, mem_keys_presentArrEntry] at hk
    rcases hk with ⟨rfl, -⟩ | ⟨rfl, -⟩ | ⟨rfl, -⟩ | ⟨rfl, -⟩ | ⟨rfl, -⟩ | ⟨rfl, -⟩ <;> decide

/-- C3 witness: the amended statement applied to the validated value of
`{id: 1, excerpt: ""}`. -/
theorem c3_amended_witness :
    ("title" ∈ payloadKeys (updatePostPayload updateArgsEmptyExcerpt) ↔
      updateArgsEmptyExcerpt.title.isSome)
    ∧ ("content" ∈ payloadKeys (updatePostPayload updateArgsEmptyExcerpt) ↔
      updateArgsEmptyExcerpt.content.isSome)
    ∧ ("status" ∈ payloadKeys (updatePostPayload updateArgsEmptyExcerpt) ↔
      updateArgsEmptyExcerpt.status.isSome)
    ∧ ("excerpt" ∈ payloadKeys (updatePostPayload updateArgsEmptyExcerpt) ↔
      ∃ s, updateArgsEmptyExcerpt.excerpt = some s ∧ s ≠ "")
    ∧ ("categories" ∈ payloadKeys (updatePostPayload updateArgsEmptyExcerpt) ↔
      updateArgsEmptyExcerpt.categories.isSome)
    ∧ ("tags" ∈ payloadKeys (updatePostPayload updateArgsEmptyExcerpt) ↔
      updateArgsEmptyExcerpt.tags.isSome)
    ∧ (∀ k, k ∈ payloadKeys (updatePostPayload updateArgsEmptyExcerpt) →
        k ∈ ["title", "content", "status", "excerpt", "categories", "tags"]) :=
  c3_amended (.obj [("id", .num 1), ("excerpt", .str "")]) updateArgsEmptyExcerpt rfl

/-- C4 counterexample: the claim states that for a status outside the four
special cases the classification yields the response body's own error code
whenever one is present; a body whose `code` field is present but empty is
classified `API_ERROR` instead (the source tests `wpError?.code ||`, a
truthiness test, not presence). -/
theorem c4_counterexample :
    bodyCode (some ⟨some "", some "boom"⟩) = some ""
    ∧ handleApiError ⟨some (500, some ⟨some "", some "boom"⟩), "m"⟩
        = ⟨"boom", "API_ERROR", some 500⟩
    ∧ ("API_ERROR" : String) ≠ "" :=
  ⟨rfl, rfl, by decide⟩

/-- C4 amended: failure classification is a pure function of
(response present?, status, body): no response gives NETWORK_ERROR;
401/403/404/429 give the four fixed codes with their status; any other
status carries the numeric status and yields the body's own error code if
present *and non-empty*, else API_ERROR; and the resulting code depends
only on the response component, not on the transport message. -/
theorem c4_amended :
    (∀ e : AxiosFailure, e.response = none →
      handleApiError e = ⟨"Network error: " ++ e.message, "NETWORK_ERROR", none⟩)
    ∧ (∀ e st body, e.response = some (st, body) →
        (st = 401 → handleApiError e =
          ⟨"Invalid credentials. Check your username and application password.",
           "AUTHENTICATION_ERROR", some 401⟩)
        ∧ (st = 403 → handleApiError e =
          ⟨"Insufficient permissions. Check user role and capabilities.",
           "PERMISSION_ERROR", some 403⟩)
        ∧ (st = 404 → handleApiError e =
          ⟨"WordPress API endpoint not found. Check if REST API is enabled.",
           "NOT_FOUND_ERROR", some 404⟩)
        ∧ (st = 429 → handleApiError e =
          ⟨"Rate limit exceeded. Please wait before making more requests.",
           "RATE_LIMIT_ERROR", some 429⟩)
        ∧ (st ≠ 401 → st ≠ 403 → st ≠ 404 → st ≠ 429 →
            (handleApiError e).statusCode = some st
            ∧ (∀ c, bodyCode body = some c → c ≠ "" → (handleApiError e).code = c)
            ∧ (bodyCode body = none ∨ bodyCode body = some "" →
                (handleApiError e).code = "API_ERROR")))
    ∧ (∀ e e' : AxiosFailure, e.response = e'.response →
        (handleApiError e).code = (handleApiError e').code) := by
  refine ⟨?_, ?_, ?_⟩
  · intro e he
    obtain ⟨resp, msg⟩ := e
    change resp = none at he
    subst he
    rfl
  · intro e st body he
    obtain ⟨resp, msg⟩ := e
    change resp = some (st, body) at he
    subst he
    refine ⟨?_, ?_, ?_, ?_, ?_⟩
    · rintro rfl; rfl
    · rintro rfl; rfl
    · rintro rfl; rfl
    · rintro rfl; rfl
    · intro h1 h3 h4 h9
      simp only [handleApiError]
      rw [if_neg h1, if_neg h3, if_neg h4, if_neg h9]
      refine ⟨rfl, ?_, ?_⟩
      · intro c hcode hcne
        simp only [bodyCode] at hcode
        show jsOrStr (body.bind fun b => b.code) "API_ERROR" = c
        rw [hcode]
        simp [jsOrStr, jsTruthy, hcne]
      · intro hd
        show jsOrStr (body.bind fun b => b.code) "API_ERROR" = "API_ERROR"
        simp only [bodyCode] at hd
        rcases hd with hd | hd <;> rw [hd] <;> simp [jsOrStr, jsTruthy]
  · intro e e' he
    obtain ⟨r, m⟩ := e
    obtain ⟨r', m'⟩ := e'
    change r = r' at he
    subst he
    cases r with
    | none => rfl
    | some p =>
      obtain ⟨st, body⟩ := p
      rfl

/-- C4 witness: the amended statement applied at concrete failures — a 403
response, a 500 response with an empty-code body, and two network failures
with different transport messages. -/
theorem c4_amended_witness :
    handleApiError ⟨none, "timeout of 30000ms exceeded"⟩ =
      ⟨"Network error: timeout of 30000ms exceeded", "NETWORK_ERROR", none⟩
    ∧ handleApiError ⟨some (403, none), "x"⟩ =
      ⟨"Insufficient permissions. Check user role and capabilities.",
       "PERMISSION_ERROR", some 403⟩
    ∧ (handleApiError ⟨some (500, some ⟨some "", some "boom"⟩), "x"⟩).statusCode = some 500
    ∧ (handleApiError ⟨some (418, some ⟨some "rest_no_route", none⟩), "x"⟩).code =
      "rest_no_route"
    ∧ (handleApiError ⟨some (500, some ⟨some "", some "boom"⟩), "x"⟩).code = "API_ERROR"
    ∧ (handleApiError ⟨none, "a"⟩).code = (handleApiError ⟨none, "b"⟩).code := by
  have h := c4_amended
  refine ⟨h.1 ⟨none, "timeout of 30000ms exceeded"⟩ rfl, ?_, ?_, ?_, ?_, ?_⟩
  · exact (h.2.1 ⟨some (403, none), "x"⟩ 403 none rfl).2.1 rfl
  · exact ((h.2.1 ⟨some (500, some ⟨some "", some "boom"⟩), "x"⟩ 500
      (some ⟨some "", some "boom"⟩) rfl).2.2.2.2 (by decide) (by decide) (by decide)
      (by decide)).1
  · exact ((h.2.1 ⟨some (418, some ⟨some "rest_no_route", none⟩), "x"⟩ 418
      (some ⟨some "rest_no_route", none⟩) rfl).2.2.2.2 (by decide) (by decide) (by decide)
      (by decide)).2.1 "rest_no_route" rfl (by decide)
  · exact ((h.2.1 ⟨some (500, some ⟨some "", some "boom"⟩), "x"⟩ 500
      (some ⟨some "", some "boom"⟩) rfl).2.2.2.2 (by decide) (by decide) (by decide)
      (by decide)).2.2 (Or.inr rfl)
  · exact h.2.2 ⟨none, "a"⟩ ⟨none, "b"⟩ rfl

theorem containsRendered_append (l₁ l₂ : List (String × PayloadVal)) :
    containsRendered (l₁ ++ l₂) = (containsRendered l₁ || containsRendered l₂) :=
  List.any_append

theorem containsRendered_truthyRaw (name : String) (o : Option String) :
    containsRendered (truthyStrEntry name o (fun e => .textField (.raw e))) = false := by
  cases o with
  | none => rfl
  | some s =>
    by_cases hs : s = "" <;> simp [truthyStrEntry, containsRendered, hs]

theorem containsRendered_presentArr (name : String) (o : Option (List Int)) :
    containsRendered (presentArrEntry name o) = false := by
  cases o <;> rfl

theorem parseCreatePostArgs_ok_status_default {fs : List (String × JVal)}
    {a : CreatePostArgs} (h : parseCreatePostArgs (.obj fs) = .ok a)
    (hstat : getField fs "status" = none) : a.status = "draft" := by
  simp only [parseCreatePostArgs] at h
  obtain ⟨title, htitle, h⟩ := except_bind_ok h
  obtain ⟨content, hcontent, h⟩ := except_bind_ok h
  obtain ⟨status, hstatus, h⟩ := except_bind_ok h
  obtain ⟨excerpt, hexcerpt, h⟩ := except_bind_ok h
  obtain ⟨categories, hcategories, h⟩ := except_bind_ok h
  obtain ⟨tags, htags, h⟩ := except_bind_ok h
  simp only [Except.ok.injEq] at h
  subst h
  rw [hstat] at hstatus
  simp only [parseEnumD, Except.ok.injEq] at hstatus
  exact hstatus.symm

/-- C5: for every create argument value passing validation, the emitted
payload carries only raw text forms (never rendered), title/content/status
are always present, categories/tags keys are entirely absent when the
validated value lacks them, status defaults to draft when unspecified, and
the Hello-World scenario produces exactly the three-key payload. -/
theorem c5_create_payload :
    (∀ v a, parseCreatePostArgs v = .ok a →
      containsRendered (createPostPayload a) = false
      ∧ ("title", PayloadVal.textField (.raw a.title)) ∈ createPostPayload a
      ∧ ("content", PayloadVal.textField (.raw a.content)) ∈ createPostPayload a
      ∧ ("status", PayloadVal.strVal a.status) ∈ createPostPayload a
      ∧ (a.categories = none → "categories" ∉ payloadKeys (createPostPayload a))
      ∧ (a.tags = none → "tags" ∉ payloadKeys (createPostPayload a)))
    ∧ (∀ fs a, parseCreatePostArgs (.obj fs) = .ok a → getField fs "status" = none →
        a.status = "draft")
    ∧ parseCreatePostArgs (.obj [("title", .str "Hello World"), ("content", .str "Body")])
        = .ok helloArgs
    ∧ createPostPayload helloArgs =
        [("title", .textField (.raw "Hello World")), ("content", .textField (.raw "Body")),
         ("status", .strVal "draft")] := by
  refine ⟨?_, ?_, rfl, rfl⟩
  · intro v a _
    refine ⟨?_, ?_, ?_, ?_, ?_, ?_⟩
    · simp only [createPostPayload, containsRendered_append, containsRendered_truthyRaw,
        containsRendered_presentArr, Bool.or_false]
      rfl
    · simp [createPostPayload]
    · simp [createPostPayload]
    · simp [createPostPayload]
    · intro hcat
      simp only [createPostPayload, payloadKeys_append, List.mem_append, hcat,
        mem_keys_truthyStrEntry, mem_keys_presentArrEntry]
      simp [payloadKeys]
    · intro htags
      simp only [createPostPayload, payloadKeys_append, List.mem_append, htags,
        mem_keys_truthyStrEntry, mem_keys_presentArrEntry]
      simp [payloadKeys]
  · intro fs a h hstat
    exact parseCreatePostArgs_ok_status_default h hstat

/-- C5 witness: the properties instantiated at the validated Hello-World
arguments, with every hypothesis discharged. -/
theorem c5_create_payload_witness :
    containsRendered (createPostPayload helloArgs) = false
    ∧ ("title", PayloadVal.textField (.raw helloArgs.title)) ∈ createPostPayload helloArgs
    ∧ ("content", PayloadVal.textField (.raw helloArgs.content)) ∈ createPostPayload helloArgs
    ∧ ("status", PayloadVal.strVal helloArgs.status) ∈ createPostPayload helloArgs
    ∧ "categories" ∉ payloadKeys (createPostPayload helloArgs)
    ∧ "tags" ∉ payloadKeys (createPostPayload helloArgs)
    ∧ helloArgs.status = "draft" := by
  have h := c5_create_payload
  have h1 := h.1 _ _ h.2.2.1
  exact ⟨h1.1, h1.2.1, h1.2.2.1, h1.2.2.2.1, h1.2.2.2.2.1 rfl, h1.2.2.2.2.2 rfl,
    h.2.1 _ _ h.2.2.1 rfl⟩

/-- C6 counterexample: the claim states an unknown operation name is
rejected with a method-not-found fault delivered to the protocol layer
unconverted, but the dispatcher's own catch converts the thrown
`McpError` through the generic branch of `handleToolError` into an
ordinary error-text response. -/
theorem c6_counterexample :
    callTool sampleConfig "not_a_tool" (.obj []) (.data (.posts [])) =
      ⟨"❌ Error executing not_a_tool: MCP error -32601: Unknown tool: not_a_tool", true⟩ :=
  rfl

/-- C6 amended: for every name outside the eight defined tools, the switch
throws a method-not-found `McpError`, but the surrounding catch converts it
into a generic error response (`isError = true`, text naming the
operation); no fault reaches the protocol layer. -/
theorem c6_amended (cfg : Config) (name : String) (args : JVal) (remote : RemoteOutcome)
    (h : name ∉ knownToolNames) :
    dispatchTool cfg name args remote =
      .error (.mcpError ("MCP error -32601: Unknown tool: " ++ name))
    ∧ callTool cfg name args remote =
      ⟨"❌ Error executing " ++ name ++ ": " ++ ("MCP error -32601: Unknown tool: " ++ name),
       true⟩ := by
  simp only [knownToolNames, List.mem_cons, List.not_mem_nil, or_false, not_or] at h
  obtain ⟨h1, h2, h3, h4, h5, h6, h7, h8⟩ := h
  have hd : dispatchTool cfg name args remote =
      .error (.mcpError ("MCP error -32601: Unknown tool: " ++ name)) := by
    simp only [dispatchTool, if_neg h1, if_neg h2, if_neg h3, if_neg h4, if_neg h5,
      if_neg h6, if_neg h7, if_neg h8]
  refine ⟨hd, ?_⟩
  simp only [callTool, hd, handleToolError]

/-- C6 witness: the amended statement applied at a concrete unknown name. -/
theorem c6_amended_witness :
    dispatchTool sampleConfig "bogus_tool" (.obj []) (.data (.posts [])) =
      .error (.mcpError ("MCP error -32601: Unknown tool: " ++ "bogus_tool"))
    ∧ callTool sampleConfig "bogus_tool" (.obj []) (.data (.posts [])) =
      ⟨"❌ Error executing " ++ "bogus_tool" ++ ": " ++
        ("MCP error -32601: Unknown tool: " ++ "bogus_tool"), true⟩ :=
  c6_amended sampleConfig "bogus_tool" (.obj []) (.data (.posts [])) (by decide)

/-- C7 counterexample: the claim states a configured REQUEST_TIMEOUT below
1000 is clamped to 1000, but 500 is rejected by the schema's minimum check
rather than becoming 1000. -/
theorem c7_counterexample :
    parseRequestTimeout (some 500) =
      .error "REQUEST_TIMEOUT: Number must be greater than or equal to 1000"
    ∧ parseRequestTimeout (some 500) ≠ .ok 1000 :=
  ⟨rfl, fun h => Except.noConfusion h⟩

/-- C7 amended: configuration loading rejects a REQUEST_TIMEOUT outside
[1000, 60000] with a fatal validation error (no clamping); an in-range
value is accepted unchanged, and an unset value defaults to 30000. -/
theorem c7_amended :
    (∀ n : Int, n < 1000 → parseRequestTimeout (some n) =
      .error "REQUEST_TIMEOUT: Number must be greater than or equal to 1000")
    ∧ (∀ n : Int, 60000 < n → parseRequestTimeout (some n) =
      .error "REQUEST_TIMEOUT: Number must be less than or equal to 60000")
    ∧ (∀ n : Int, 1000 ≤ n → n ≤ 60000 → parseRequestTimeout (some n) = .ok n)
    ∧ parseRequestTimeout none = .ok 30000 := by
  refine ⟨?_, ?_, ?_, rfl⟩
  · intro n hn
    simp [parseRequestTimeout, hn]
  · intro n hn
    have h1 : ¬(n < 1000) := by omega
    simp [parseRequestTimeout, h1, hn]
  · intro n hlo hhi
    have h1 : ¬(n < 1000) := by omega
    have h2 : ¬(60000 < n) := by omega
    simp [parseRequestTimeout, h1, h2]

/-- C7 witness: the amended statement applied at 500, 99999, 30000 and an
unset variable. -/
theorem c7_amended_witness :
    parseRequestTimeout (some 500) =
      .error "REQUEST_TIMEOUT: Number must be greater than or equal to 1000"
    ∧ parseRequestTimeout (some 99999) =
      .error "REQUEST_TIMEOUT: Number must be less than or equal to 60000"
    ∧ parseRequestTimeout (some 30000) = .ok 30000
    ∧ parseRequestTimeout none = .ok 30000 := by
  have h := c7_amended
  exact ⟨h.1 500 (by decide), h.2.1 99999 (by decide),
    h.2.2.1 30000 (by decide) (by decide), h.2.2.2⟩

/-- C8: base-URL normalization strips one trailing slash before appending
the fixed API segment, so for every URL without a trailing slash,
normalizing it and normalizing it followed by a slash give the same
effective request base. -/
theorem c8_normalize_url (u : String) (h : u.data.getLast? ≠ some '/') :
    normalizeUrl u = normalizeUrl (u ++ "/") := by
  obtain ⟨l⟩ := u
  show normalizeUrl ⟨l⟩ = normalizeUrl ⟨l ++ ['/']⟩
  have hlast : ((⟨l ++ ['/']⟩ : String)).data.getLast? = some '/' := by simp
  have hdrop : (l ++ ['/']).dropLast = l := by simp
  simp only [normalizeUrl]
  rw [if_neg h, if_pos hlast]
  simp [hdrop]

/-- C8 witness: the theorem applied at the spec's example base URL. -/
theorem c8_normalize_url_witness :
    ("https://x.com" : String).data.getLast? ≠ some '/'
    ∧ normalizeUrl "https://x.com" = normalizeUrl ("https://x.com" ++ "/") :=
  ⟨by decide, c8_normalize_url "https://x.com" (by decide)⟩

/-- C9: the application secret never influences any text returned to the
protocol layer: for every tool invocation (any name, arguments and remote
outcome, including the test-connection report and every classified or
generic error), two configurations differing only in the secret produce
identical responses. -/
theorem c9_secret_noninterference (cfg : Config) (pw₁ pw₂ : String) (name : String)
    (args : JVal) (remote : RemoteOutcome) :
    callTool { cfg with WORDPRESS_APP_PASSWORD := pw₁ } name args remote =
    callTool { cfg with WORDPRESS_APP_PASSWORD := pw₂ } name args remote := by
  unfold callTool dispatchTool
  split_ifs <;> rfl

set_option maxRecDepth 8000 in
/-- C10 counterexample: the claim states the ellipsis is appended iff the
rendered content was actually truncated (strictly longer than 150), but a
rendered content of exactly 150 characters is not truncated and still
receives the ellipsis (the source tests `content.length >= 150` on the cut
string). -/
theorem c10_counterexample :
    c10SamplePost.content.bind (fun c => c.rendered) = some s150
    ∧ s150.length = 150
    ∧ ¬(150 < s150.length)
    ∧ formatPostLine listArgsWithContent c10SamplePost =
      "• ID: 1 | T | Status: publish | Modified: 2024-01-02\n  Content: " ++ s150 ++
        "..." := by
  refine ⟨rfl, rfl, by decide, ?_⟩
  rfl

/-- C10 amended: when content is requested and the post's rendered content
is truthy, the list line gains a second line holding the first 150
characters of the rendered content, and the ellipsis is appended iff the
rendered content is at least (not strictly longer than) 150 characters
long. -/
theorem c10_amended (a : ListPostsArgs) (p : WordPressPostS) (r : String)
    (hic : a.include_content = true)
    (hr : jsTruthy (p.content.bind (fun c => c.rendered)) = some r) :
    formatPostLine a p =
      "• ID: " ++ optIntStr p.id ++ " | " ++ listTitle p ++ " | Status: " ++ p.status ++
        " | Modified: " ++ listModified p ++ "\n  Content: " ++ jsSubstring r 150 ++
        (if 150 ≤ r.length then "..." else "") := by
  have hlen : (jsSubstring r 150).length = min 150 r.length := by
    show (r.data.take 150).length = min 150 r.data.length
    exact List.length_take 150 r.data
  have hcond : (150 ≤ (jsSubstring r 150).length) ↔ (150 ≤ r.length) := by
    rw [hlen]
    omega
  simp only [formatPostLine, listContentSuffix, hic, hr, hcond, String.append_assoc]

/-- C10 witness: the amended statement applied at a three-character
rendered content, where no ellipsis results. -/
theorem c10_amended_witness :
    listArgsWithContent.include_content = true
    ∧ jsTruthy (c1SamplePost.title.bind (fun t => t.rendered)) = some "Hi"
    ∧ formatPostLine listArgsWithContent
        ⟨some 7, some ⟨some "Hi", none⟩, some ⟨some "xyz", none⟩, none, "draft", none,
         none, none⟩ =
      "• ID: " ++ optIntStr (some 7) ++ " | " ++
        listTitle ⟨some 7, some ⟨some "Hi", none⟩, some ⟨some "xyz", none⟩, none, "draft",
          none, none, none⟩ ++ " | Status: " ++ "draft" ++ " | Modified: " ++
        listModified ⟨some 7, some ⟨some "Hi", none⟩, some ⟨some "xyz", none⟩, none,
          "draft", none, none, none⟩ ++ "\n  Content: " ++ jsSubstring "xyz" 150 ++
        (if 150 ≤ ("xyz" : String).length then "..." else "") :=
  ⟨rfl, rfl,
   c10_amended listArgsWithContent
     ⟨some 7, some ⟨some "Hi", none⟩, some ⟨some "xyz", none⟩, none, "draft", none,
      none, none⟩ "xyz" rfl rfl⟩

end WPMCP












